import Mathlib

/-!
Verification of the contrail-third-party package pipeline
(`fetch_packages.py` and `populate_cache.py`) via a shallow embedding.

Modelling conventions:
* File contents are represented by their MD5 digest (a `String`); a file
  state of `none` means the file is absent.  `FindMd5sum` therefore needs
  no separate model: the digest of a file *is* its modelled content.
* External processes (urlretrieve, tar, unzip, patch, autoreconf) are
  oracles supplied through an `Env` record; their observable invocations
  are recorded in an effect trace.
* The host is non-Windows (`platform.system() != 'Windows'`), matching the
  primary target of the tool; the Windows-only 7z branches are out of scope.
* The script targets Python 3.x < 3.8 (it relies on `platform.dist`,
  `Element.getchildren` and `distutils`, all removed later), so those
  calls are modelled as working.  Calls that are invalid on
  `xml.etree.ElementTree` elements in *every* Python version
  (`pkg.format`, `exclude.iterchildren`, `pkg['name']`) are modelled as
  the runtime errors they raise.
-/

namespace Contrail

/-- Python truthiness of an optional string value: `None` and `""` are falsy. -/
def strOptTruthy : Option String → Bool
  | none => false
  | some s => !(s == "")

/-- Character membership in a character list; models Python `s.find(c) >= 0`. -/
def charIn (c : Char) : List Char → Bool
  | [] => false
  | d :: rest => c == d || charIn c rest

/-- Python `str.find(c) >= 0`: the character occurs somewhere in the string. -/
def pyFindNonneg (c : Char) (s : String) : Bool := charIn c s.data

/-- Python slice `s[:-1]` (drop the final character). -/
def pyDropLast (s : String) : String := String.mk s.data.dropLast

/-- Python slice `s[1:]` (drop the first character). -/
def pyDropFirst (s : String) : String := String.mk (s.data.drop 1)

/-- Split a character list at every character satisfying `p` (separators are
dropped, empty segments kept), the character-level counterpart of Python
`str.split(sep)`. -/
def splitByPred (p : Char → Bool) : List Char → List (List Char)
  | [] => [[]]
  | d :: rest =>
    let r := splitByPred p rest
    if p d then [] :: r
    else
      match r with
      | [] => [[d]]
      | seg :: segs => (d :: seg) :: segs

/-- Decimal digits to a natural number, as Python `int` on a digit string
(`int("04") = 4`). -/
def digitsToNatAux (acc : Nat) : List Char → Nat
  | [] => acc
  | c :: rest => digitsToNatAux (acc * 10 + (c.toNat - 48)) rest

def digitsToNat (cs : List Char) : Nat := digitsToNatAux 0 cs

/-- `distutils.version.LooseVersion` restricted to the dotted-numeric
grammar `version := [0-9]+(\.[0-9]+)*` documented in `VersionMatch`:
the version string parses into its list of numeric segments
(so `14.04` parses to `[14, 4]`). -/
def LooseVersionOf (s : String) : List Nat :=
  (splitByPred (fun c => c == '.') s.data).map digitsToNat

/-- Strict comparison of parsed `LooseVersion` component lists, matching
Python list comparison on lists of integers (a strict prefix is smaller). -/
def looseLt : List Nat → List Nat → Bool
  | [], [] => false
  | [], _ :: _ => true
  | _ :: _, [] => false
  | a :: as2, b :: bs =>
    if a < b then true
    else if a == b then looseLt as2 bs
    else false

/-- `VersionMatch(v_sys, v_spec)` from fetch_packages.py lines 161-173:
a `'+'` anywhere in the spec (trailing, per the documented grammar) means
`LooseVersion(v_sys) >= LooseVersion(v_spec[:-1])`; otherwise a `'-'`
anywhere (leading, per the grammar) means
`LooseVersion(v_sys) <= LooseVersion(v_spec[1:])`; otherwise equality. -/
def VersionMatch (v_sys v_spec : String) : Bool :=
  if pyFindNonneg '+' v_spec then
    !(looseLt (LooseVersionOf v_sys) (LooseVersionOf (pyDropLast v_spec)))
  else if pyFindNonneg '-' v_spec then
    looseLt (LooseVersionOf v_sys) (LooseVersionOf (pyDropFirst v_spec))
      || LooseVersionOf v_sys == LooseVersionOf (pyDropFirst v_spec)
  else
    LooseVersionOf v_sys == LooseVersionOf v_spec

/-- `PlatformMatch(system, spec)` from fetch_packages.py lines 175-178:
distro names must be equal, then versions are compared by `VersionMatch`. -/
def PlatformMatch (system spec : String × String) : Bool :=
  if system.1 != spec.1 then false
  else VersionMatch system.2 spec.2

/-- `cached_file_exists(dest, filename, md5sum)` from populate_cache.py
lines 47-64.  The local file is given by its content digest (`none` when
the file is missing): a missing file or a checksum mismatch returns
`false` (download needed), a matching checksum returns `true`. -/
def cached_file_exists (localFile : Option String) (md5sum : String) : Bool :=
  match localFile with
  | none => false
  | some calculated => calculated == md5sum

/-- The per-package body of populate_cache.py `main` (lines 97-101):
returns `true` exactly when `download_package` is invoked, i.e. when
`cached_file_exists` is false. -/
def populate_downloads (localFile : Option String) (md5sum : String) : Bool :=
  !(cached_file_exists localFile md5sum)

theorem string_data_append (a b : String) : (a ++ b).data = a.data ++ b.data := by
  cases a; cases b; rfl

theorem string_mk_data (s : String) : String.mk s.data = s := by
  cases s; rfl

theorem charIn_append (c : Char) (l m : List Char) :
    charIn c (l ++ m) = (charIn c l || charIn c m) := by
  induction l with
  | nil => simp [charIn]
  | cons d rest ih => simp [charIn, ih, Bool.or_assoc]

theorem pyDropLast_append_plus (v : String) :
    pyDropLast (v ++ "+") = v := by
  unfold pyDropLast
  rw [string_data_append]
  show String.mk ((v.data ++ ['+']).dropLast) = v
  rw [List.dropLast_concat, string_mk_data]

theorem pyDropFirst_dash_append (v : String) :
    pyDropFirst ("-" ++ v) = v := by
  unfold pyDropFirst
  rw [string_data_append]
  show String.mk ((['-'] ++ v.data).drop 1) = v
  simp [string_mk_data]

theorem pyFindNonneg_plus_append (v : String) :
    pyFindNonneg '+' (v ++ "+") = true := by
  unfold pyFindNonneg
  rw [string_data_append, charIn_append]
  simp [charIn]

theorem pyFindNonneg_dash_append (v : String) :
    pyFindNonneg '-' ("-" ++ v) = true := by
  unfold pyFindNonneg
  rw [string_data_append]
  show charIn '-' (['-'] ++ v.data) = true
  rw [charIn_append]
  simp [charIn]

theorem pyFindNonneg_of_not_contains (c : Char) (v : String)
    (h : charIn c v.data = false) : pyFindNonneg c v = false := h

theorem pyFindNonneg_plus_dash_append (v : String)
    (h : charIn '+' v.data = false) : pyFindNonneg '+' ("-" ++ v) = false := by
  unfold pyFindNonneg
  rw [string_data_append]
  show charIn '+' (['-'] ++ v.data) = false
  rw [charIn_append]
  simp [charIn, h]

/-- C5: Version-spec semantics.  A trailing `'+'` means host version is at
least the spec version, a leading `'-'` means host version is at most the
spec version, no marker means exact equality, all with dotted-numeric
segment-by-segment comparison (`LooseVersionOf`/`looseLt`); together with
the five concrete examples from the spec and the sample parse
`LooseVersionOf "14.04" = [14, 4]` witnessing the segment-wise reading. -/
theorem VersionMatch_spec_semantics (s v : String)
    (hplus : charIn '+' v.data = false) (hdash : charIn '-' v.data = false) :
    VersionMatch s (v ++ "+")
        = !(looseLt (LooseVersionOf s) (LooseVersionOf v))
      ∧ VersionMatch s ("-" ++ v)
        = (looseLt (LooseVersionOf s) (LooseVersionOf v)
            || LooseVersionOf s == LooseVersionOf v)
      ∧ VersionMatch s v = (LooseVersionOf s == LooseVersionOf v)
      ∧ LooseVersionOf "14.04" = [14, 4]
      ∧ VersionMatch "14.04" "14.04+" = true
      ∧ VersionMatch "12.04" "14.04+" = false
      ∧ VersionMatch "12.04" "-14.04" = true
      ∧ VersionMatch "14.04" "14.04" = true
      ∧ VersionMatch "14.05" "14.04" = false := by
  refine ⟨?_, ?_, ?_, by decide, by decide, by decide, by decide, by decide, by decide⟩
  · unfold VersionMatch
    rw [pyFindNonneg_plus_append, pyDropLast_append_plus]
    simp
  · unfold VersionMatch
    rw [pyFindNonneg_plus_dash_append v hplus, pyFindNonneg_dash_append,
      pyDropFirst_dash_append]
    simp
  · unfold VersionMatch
    rw [pyFindNonneg_of_not_contains '+' v hplus,
      pyFindNonneg_of_not_contains '-' v hdash]
    simp

theorem VersionMatch_spec_semantics_witness :
    VersionMatch "12.04" ("14.04" ++ "+")
        = !(looseLt (LooseVersionOf "12.04") (LooseVersionOf "14.04"))
      ∧ VersionMatch "12.04" ("-" ++ "14.04")
        = (looseLt (LooseVersionOf "12.04") (LooseVersionOf "14.04")
            || LooseVersionOf "12.04" == LooseVersionOf "14.04")
      ∧ VersionMatch "12.04" "14.04" = (LooseVersionOf "12.04" == LooseVersionOf "14.04")
      ∧ LooseVersionOf "14.04" = [14, 4]
      ∧ VersionMatch "14.04" "14.04+" = true
      ∧ VersionMatch "12.04" "14.04+" = false
      ∧ VersionMatch "12.04" "-14.04" = true
      ∧ VersionMatch "14.04" "14.04" = true
      ∧ VersionMatch "14.05" "14.04" = false :=
  VersionMatch_spec_semantics "12.04" "14.04" (by decide) (by decide)

/-- The run configuration from the `ARGS` dictionary of fetch_packages.py
(lines 21-34 and `parse_args`); `site_mirror` is `none` when the
`--site-mirror` option was not given. -/
structure Args where
  cache_dir : String
  node_modules_dir : String
  node_modules_tmp_dir : String
  verbose : Bool
  dry_run : Bool
  site_mirror : Option String
  deriving DecidableEq

/-- One `<url>` element of a package's `<urls>` list (only its text is read
by `DownloadPackage`). -/
structure Url where
  text : String
  deriving DecidableEq

/-- `_RETRIES = 5` (fetch_packages.py line 34). -/
def _RETRIES : Nat := 5

/-- Observable state threaded through `DownloadPackage`:
`file` is the digest of the content at the destination path (`none` when
absent), `md5sumVar` is the Python local variable `md5sum` (`none` while
unbound), `attempts` counts `urllib.request.urlretrieve` calls, and
`sleeps` records the backoff `sleep` durations in order. -/
structure FetchState where
  file : Option String
  md5sumVar : Option String
  attempts : Nat
  sleeps : List Nat
  deriving DecidableEq

/-- How a `DownloadPackage` call ends: normal return, the `RuntimeError`
of lines 137-138 (carrying the last computed checksum, the expected
checksum and the destination path), or the `NameError` raised when the
`raise` statement reads the never-assigned local `md5sum`. -/
inductive FetchResult where
  | success
  | checksumMismatch (computed expected destPath : String)
  | nameError
  deriving DecidableEq

/-- Python substring containment `pat in s`, on character lists. -/
def containsSub (pat : List Char) : List Char → Bool
  | [] => pat.isEmpty
  | c :: rest => pat.isPrefixOf (c :: rest) || containsSub pat rest

/-- The mirror placeholder literally present in manifest URLs. -/
def SITE_MIRROR_TOKEN : String := "\x7b\x7b site_mirror \x7d\x7d"

/-- The poor man's templating of lines 113-117: substitute the mirror
placeholder when present (the caller has already ruled out an unset
mirror for URLs containing the placeholder). -/
def substMirror (args : Args) (url : String) : String :=
  if containsSub SITE_MIRROR_TOKEN.data url.data then
    url.replace SITE_MIRROR_TOKEN (args.site_mirror.getD "")
  else url

/-- One round of the download loop (the `for url in urls` body,
fetch_packages.py lines 111-131).  `net n u` is the oracle for the `n`-th
`urlretrieve` call against URL `u`: `none` models a raised transport
exception (file left as it was, next URL tried), `some c` models a
completed transfer writing content with digest `c`.  On a checksum match
the function returns `true`; on a mismatch the file is removed
(`os.remove`) and the next URL is tried. -/
def tryUrls (args : Args) (net : Nat → String → Option String) (md5 : String) :
    List Url → FetchState → FetchState × Bool
  | [], s => (s, false)
  | u :: rest, s =>
    if containsSub SITE_MIRROR_TOKEN.data u.text.data && !(strOptTruthy args.site_mirror) then
      tryUrls args net md5 rest s
    else
      match net s.attempts (substMirror args u.text) with
      | none => tryUrls args net md5 rest { s with attempts := s.attempts + 1 }
      | some c =>
        if c == md5 then
          ({ s with attempts := s.attempts + 1, file := some c, md5sumVar := some c }, true)
        else
          tryUrls args net md5 rest
            { s with attempts := s.attempts + 1, file := none, md5sumVar := some c }

/-- The `raise RuntimeError(... % (md5sum, md5, pkg))` of lines 137-138:
evaluating the message reads the local `md5sum`; if it was never assigned
the statement itself raises `NameError` instead. -/
def raiseMismatch (s : FetchState) (md5 destPath : String) : FetchResult :=
  match s.md5sumVar with
  | some computed => FetchResult.checksumMismatch computed md5 destPath
  | none => FetchResult.nameError

/-- The `while retry_count <= _RETRIES` loop of lines 109-134; `fuel` is
the number of rounds still allowed (initially `_RETRIES + 1`) and `rc` the
current value of `retry_count`.  After every unsuccessful round the code
increments `retry_count` and sleeps `10 * retry_count` seconds — including
after the final round, just before raising. -/
def downloadLoop (args : Args) (net : Nat → String → Option String) (urls : List Url)
    (md5 destPath : String) : Nat → Nat → FetchState → FetchState × FetchResult
  | 0, _, s => (s, raiseMismatch s md5 destPath)
  | fuel + 1, rc, s =>
    match tryUrls args net md5 urls s with
    | (s1, true) => (s1, FetchResult.success)
    | (s1, false) =>
      downloadLoop args net urls md5 destPath fuel (rc + 1)
        { s1 with sleeps := s1.sleeps ++ [10 * (rc + 1)] }

/-- `DownloadPackage(urls, pkg, md5)` from fetch_packages.py lines 100-138.
`existing` is the digest of a pre-existing file at the destination path
(`none` when absent): a matching pre-existing file returns immediately;
a mismatching one is removed (`os.remove`, line 107) before the retry
loop starts. -/
def DownloadPackage (args : Args) (net : Nat → String → Option String) (urls : List Url)
    (destPath : String) (existing : Option String) (md5 : String) :
    FetchState × FetchResult :=
  match existing with
  | some c =>
    if c == md5 then
      ({ file := some c, md5sumVar := some c, attempts := 0, sleeps := [] },
        FetchResult.success)
    else
      downloadLoop args net urls md5 destPath (_RETRIES + 1) 0
        { file := none, md5sumVar := some c, attempts := 0, sleeps := [] }
  | none =>
      downloadLoop args net urls md5 destPath (_RETRIES + 1) 0
        { file := none, md5sumVar := none, attempts := 0, sleeps := [] }

theorem tryUrls_found_file (args : Args) (net : Nat → String → Option String)
    (md5 : String) :
    ∀ (urls : List Url) (s s1 : FetchState),
      tryUrls args net md5 urls s = (s1, true) → s1.file = some md5 := by
  intro urls
  induction urls with
  | nil =>
    intro s s1 h
    simp [tryUrls] at h
  | cons u rest ih =>
    intro s s1 h
    unfold tryUrls at h
    split at h
    · exact ih _ _ h
    · split at h
      · exact ih _ _ h
      · rename_i c hc
        split at h
        · rename_i hmatch
          rw [Prod.mk.injEq] at h
          rw [← h.1]
          simpa using eq_of_beq hmatch
        · exact ih _ _ h

theorem downloadLoop_success_file (args : Args) (net : Nat → String → Option String)
    (urls : List Url) (md5 destPath : String) :
    ∀ (fuel rc : Nat) (s s1 : FetchState),
      downloadLoop args net urls md5 destPath fuel rc s = (s1, FetchResult.success) →
      s1.file = some md5 := by
  intro fuel
  induction fuel with
  | zero =>
    intro rc s s1 h
    unfold downloadLoop at h
    rw [Prod.mk.injEq] at h
    unfold raiseMismatch at h
    split at h <;> simp_all
  | succ fuel ih =>
    intro rc s s1 h
    unfold downloadLoop at h
    split at h
    · rename_i s2 ht
      rw [Prod.mk.injEq] at h
      rw [← h.1]
      exact tryUrls_found_file args net md5 urls s s2 ht
    · exact ih _ _ _ h

theorem downloadLoop_failure_shape (args : Args) (net : Nat → String → Option String)
    (urls : List Url) (md5 destPath : String) :
    ∀ (fuel rc : Nat) (s s1 : FetchState) (r : FetchResult),
      downloadLoop args net urls md5 destPath fuel rc s = (s1, r) →
      r ≠ FetchResult.success → r = raiseMismatch s1 md5 destPath := by
  intro fuel
  induction fuel with
  | zero =>
    intro rc s s1 r h _
    unfold downloadLoop at h
    rw [Prod.mk.injEq] at h
    obtain ⟨h1, h2⟩ := h
    subst h1
    exact h2.symm
  | succ fuel ih =>
    intro rc s s1 r h hr
    unfold downloadLoop at h
    split at h
    · rw [Prod.mk.injEq] at h
      exact absurd h.2.symm hr
    · exact ih _ _ _ _ h hr

/-- C1: Idempotent fetch.  When the destination file already exists with a
digest equal to the expected checksum, `DownloadPackage` returns success
immediately with zero transfer attempts, zero backoff sleeps and the file
unchanged; and in the mirror populator, `cached_file_exists` holds for a
cached file with a matching checksum, so the per-package loop body skips
`download_package` entirely. -/
theorem idempotent_fetch (args : Args) (net : Nat → String → Option String)
    (urls : List Url) (destPath md5 : String) :
    DownloadPackage args net urls destPath (some md5) md5
        = ({ file := some md5, md5sumVar := some md5, attempts := 0, sleeps := [] },
            FetchResult.success)
      ∧ cached_file_exists (some md5) md5 = true
      ∧ populate_downloads (some md5) md5 = false := by
  refine ⟨?_, by simp [cached_file_exists], by simp [populate_downloads, cached_file_exists]⟩
  unfold DownloadPackage
  simp

/-- C2: Retry accounting evaluated at a failing input: one URL, no
pre-existing file, every transfer completing with a wrong checksum.  The
call makes exactly `(_RETRIES + 1) * 1 = 6` transfer attempts, the sleep
after round `k` is `10 * k` seconds — but the code also sleeps after the
final round before raising, so the total backoff is
`10 + 20 + 30 + 40 + 50 + 60 = 210` seconds, not the `150` seconds stated
by the claim and by the comment on fetch_packages.py line 133. -/
theorem retry_backoff_eval :
    DownloadPackage
        { cache_dir := "cache", node_modules_dir := "node_modules",
          node_modules_tmp_dir := "cache/node_modules", verbose := false,
          dry_run := false, site_mirror := none }
        (fun _ _ => some "badsum") [{ text := "http://example.com/p.tgz" }]
        "cache/p.tgz" none "aaaa"
      = ({ file := none, md5sumVar := some "badsum", attempts := 6,
            sleeps := [10, 20, 30, 40, 50, 60] },
          FetchResult.checksumMismatch "badsum" "aaaa" "cache/p.tgz")
    ∧ [10, 20, 30, 40, 50, 60].sum = 210
    ∧ 6 = (_RETRIES + 1) * 1 := by
  refine ⟨by decide, by decide, by decide⟩

/-- C9 counterexample: with no pre-existing file and every URL failing at
the transport level, all rounds are exhausted without ever computing a
checksum, and the operation does **not** fail with the checksum-mismatch
`RuntimeError`: the `raise` statement reads the unbound local `md5sum`
and fails with a `NameError` instead. -/
theorem exhaustion_nameError_counterexample :
    DownloadPackage
        { cache_dir := "cache", node_modules_dir := "node_modules",
          node_modules_tmp_dir := "cache/node_modules", verbose := false,
          dry_run := false, site_mirror := none }
        (fun _ _ => none) [{ text := "http://example.com/p.tgz" }]
        "cache/p.tgz" none "aaaa"
      = ({ file := none, md5sumVar := none, attempts := 6,
            sleeps := [10, 20, 30, 40, 50, 60] },
          FetchResult.nameError) := by
  decide

/-- C9 (amended): when `DownloadPackage` does not return success, it fails
with the checksum-mismatch `RuntimeError` carrying the last computed
checksum (the final value of the `md5sum` local), the expected checksum
and the destination path — provided some checksum was computed during the
call (a pre-existing file or at least one completed transfer); if no
checksum was ever computed the call fails with a `NameError` instead. -/
theorem exhaustion_failure_amended (args : Args) (net : Nat → String → Option String)
    (urls : List Url) (destPath : String) (existing : Option String) (md5 : String)
    (h : (DownloadPackage args net urls destPath existing md5).2 ≠ FetchResult.success) :
    (∃ m, (DownloadPackage args net urls destPath existing md5).1.md5sumVar = some m
        ∧ (DownloadPackage args net urls destPath existing md5).2
            = FetchResult.checksumMismatch m md5 destPath)
    ∨ ((DownloadPackage args net urls destPath existing md5).1.md5sumVar = none
        ∧ (DownloadPackage args net urls destPath existing md5).2
            = FetchResult.nameError) := by
  rcases hdp : DownloadPackage args net urls destPath existing md5 with ⟨s1, r⟩
  rw [hdp] at h
  dsimp only at h
  have hshape : r = raiseMismatch s1 md5 destPath := by
    rcases existing with _ | c
    · simp only [DownloadPackage] at hdp
      exact downloadLoop_failure_shape args net urls md5 destPath _ _ _ _ _ hdp h
    · simp only [DownloadPackage] at hdp
      by_cases hc : (c == md5) = true
      · rw [if_pos hc] at hdp
        rw [Prod.mk.injEq] at hdp
        exact absurd hdp.2.symm h
      · rw [if_neg hc] at hdp
        exact downloadLoop_failure_shape args net urls md5 destPath _ _ _ _ _ hdp h
  dsimp only
  unfold raiseMismatch at hshape
  rcases hm : s1.md5sumVar with _ | m
  · right
    rw [hm] at hshape
    exact ⟨rfl, hshape⟩
  · left
    rw [hm] at hshape
    exact ⟨m, rfl, hshape⟩

theorem exhaustion_failure_amended_witness :
    (DownloadPackage
        { cache_dir := "cache", node_modules_dir := "node_modules",
          node_modules_tmp_dir := "cache/node_modules", verbose := false,
          dry_run := false, site_mirror := none }
        (fun _ _ => none) [{ text := "http://example.com/p.tgz" }]
        "cache/p.tgz" (some "bb") "aaaa").2
      = FetchResult.checksumMismatch "bb" "aaaa" "cache/p.tgz" := by
  rcases exhaustion_failure_amended
      { cache_dir := "cache", node_modules_dir := "node_modules",
        node_modules_tmp_dir := "cache/node_modules", verbose := false,
        dry_run := false, site_mirror := none }
      (fun _ _ => none) [{ text := "http://example.com/p.tgz" }]
      "cache/p.tgz" (some "bb") "aaaa" (by decide) with ⟨m, hm, hr⟩ | ⟨hm, hr⟩
  · have hmv : (DownloadPackage
        { cache_dir := "cache", node_modules_dir := "node_modules",
          node_modules_tmp_dir := "cache/node_modules", verbose := false,
          dry_run := false, site_mirror := none }
        (fun _ _ => none) [{ text := "http://example.com/p.tgz" }]
        "cache/p.tgz" (some "bb") "aaaa").1.md5sumVar = some "bb" := by decide
    rw [hmv] at hm
    cases hm
    exact hr
  · have hmv : (DownloadPackage
        { cache_dir := "cache", node_modules_dir := "node_modules",
          node_modules_tmp_dir := "cache/node_modules", verbose := false,
          dry_run := false, site_mirror := none }
        (fun _ _ => none) [{ text := "http://example.com/p.tgz" }]
        "cache/p.tgz" (some "bb") "aaaa").1.md5sumVar = some "bb" := by decide
    rw [hmv] at hm
    exact absurd hm (by simp)

/-- C10: Implicit download postcondition.  Whenever `DownloadPackage`
returns normally, the destination file exists and its digest equals the
expected checksum; and a pre-existing file with a non-matching checksum is
deleted before any transfer attempt: the retry loop is entered with the
file already absent (`file := none`) and only the stale digest retained in
the `md5sum` local. -/
theorem download_postcondition (args : Args) (net : Nat → String → Option String)
    (urls : List Url) (destPath : String) (existing : Option String) (md5 c : String)
    (h : (DownloadPackage args net urls destPath existing md5).2 = FetchResult.success) :
    (DownloadPackage args net urls destPath existing md5).1.file = some md5
    ∧ DownloadPackage args net urls destPath (some c) md5
      = (if c == md5 then
          ({ file := some c, md5sumVar := some c, attempts := 0, sleeps := [] },
            FetchResult.success)
        else
          downloadLoop args net urls md5 destPath (_RETRIES + 1) 0
            { file := none, md5sumVar := some c, attempts := 0, sleeps := [] }) := by
  refine ⟨?_, by unfold DownloadPackage; rfl⟩
  rcases hdp : DownloadPackage args net urls destPath existing md5 with ⟨s1, r⟩
  rw [hdp] at h
  dsimp only at h
  subst h
  dsimp only
  rcases existing with _ | c2
  · simp only [DownloadPackage] at hdp
    exact downloadLoop_success_file args net urls md5 destPath _ _ _ _ hdp
  · simp only [DownloadPackage] at hdp
    by_cases hc : (c2 == md5) = true
    · rw [if_pos hc] at hdp
      rw [Prod.mk.injEq] at hdp
      rw [← hdp.1]
      simpa using eq_of_beq hc
    · rw [if_neg hc] at hdp
      exact downloadLoop_success_file args net urls md5 destPath _ _ _ _ hdp

theorem download_postcondition_witness :
    (DownloadPackage
        { cache_dir := "cache", node_modules_dir := "node_modules",
          node_modules_tmp_dir := "cache/node_modules", verbose := false,
          dry_run := false, site_mirror := none }
        (fun _ _ => some "aaaa") [{ text := "http://example.com/p.tgz" }]
        "cache/p.tgz" none "aaaa").1.file = some "aaaa"
    ∧ DownloadPackage
        { cache_dir := "cache", node_modules_dir := "node_modules",
          node_modules_tmp_dir := "cache/node_modules", verbose := false,
          dry_run := false, site_mirror := none }
        (fun _ _ => some "aaaa") [{ text := "http://example.com/p.tgz" }]
        "cache/p.tgz" (some "bb") "aaaa"
      = (if "bb" == "aaaa" then
          ({ file := some "bb", md5sumVar := some "bb", attempts := 0, sleeps := [] },
            FetchResult.success)
        else
          downloadLoop
            { cache_dir := "cache", node_modules_dir := "node_modules",
              node_modules_tmp_dir := "cache/node_modules", verbose := false,
              dry_run := false, site_mirror := none }
            (fun _ _ => some "aaaa") [{ text := "http://example.com/p.tgz" }]
            "aaaa" "cache/p.tgz" (_RETRIES + 1) 0
            { file := none, md5sumVar := some "bb", attempts := 0, sleeps := [] }) :=
  download_postcondition _ _ _ _ _ _ "bb" (by decide)

/-- One `<patch>` element: the patch file path (element text) and the
optional `strip` attribute. -/
structure Patch where
  text : String
  strip : Option String
  deriving DecidableEq

/-- One manifest `<package>` element, with `none` for absent child
elements/attributes.  `platformExclusions` is `none` when the package has
no `<platform>` node; when a `<platform>` node exists the exclusions are
the `(name, version)` pairs of its `<exclude>` children. -/
structure Pkg where
  name : String
  urls : List Url
  localFilename : Option String
  md5 : String
  format : Option String
  destination : Option String
  unpackDirectory : Option String
  rename : Option String
  patches : Option (List Patch)
  platformExclusions : Option (List (String × String))
  autoreconf : Option String
  deriving DecidableEq

/-- An observable action of `ProcessPackage`, in execution order:
log line, the whole `DownloadPackage` call (with its attempt count and
backoff sleeps), `shutil.rmtree`, `os.makedirs`, the extraction
subprocess (with its working directory), `os.rename`, one `patch`
subprocess (command line and patch file fed on stdin), and the
`autoreconf` subprocess (with its working directory). -/
inductive Effect where
  | print (msg : String)
  | fetch (attempts : Nat) (sleeps : List Nat)
  | rmtree (path : String)
  | makedirs (path : String)
  | extract (cmd : List String) (cwd : Option String)
  | renameFs (src dst : String)
  | patchCmd (cmd : List String) (patchFile : String)
  | autoreconfAt (path : Option String)
  deriving DecidableEq

/-- How `ProcessPackage` ends: normal completion, a platform skip, the
"Unexpected format" early return, a propagated `DownloadPackage` error,
a `PatchError`, the `sys.exit` of `ReconfigurePackageSources`, or one of
the Python runtime errors latent in the code (`AttributeError` from
`pkg.format` / `exclude.iterchildren` / missing mandatory nodes,
`TypeError` from `pkg['name']`, `IndexError` from `urls[0]`). -/
inductive POutcome where
  | done
  | skipped
  | unsupportedFormat (format : String)
  | fetchError (r : FetchResult)
  | patchError (patchFile : String)
  | reconfigureExit
  | attributeError
  | typeError
  | indexError
  deriving DecidableEq

/-- The environment oracles for one `ProcessPackage` call: detected host
platform (`platform.dist()`), `os.path.isdir`, the digest of the cache
file at the package's download path (`none` when absent), the network
oracle (as in `tryUrls`), the per-invocation exit status of the `patch`
subprocess (`true` = exit 0), and whether `autoreconf` exits 0. -/
structure Env where
  host : String × String
  isdir : String → Bool
  fileState : Option String
  net : Nat → String → Option String
  patchExit : Nat → Bool
  autoreconfOk : Bool

/-- Result of `PlatformRequires`: a boolean, or the `AttributeError`
raised by `exclude.iterchildren` (an lxml method absent from
`xml.etree.ElementTree` elements) whenever a `<platform>` node exists. -/
inductive PlatReq where
  | req (b : Bool)
  | attrError
  deriving DecidableEq

/-- `PlatformRequires(pkg)` from fetch_packages.py lines 180-194.  With no
`<platform>` node it returns `True` (line 183).  Otherwise line 188 calls
`exclude.iterchildren('distribution')`, which does not exist on
`xml.etree.ElementTree` elements (it is lxml API left over from an older
revision), so the call raises `AttributeError` before any exclusion is
examined — regardless of the exclusion contents. -/
def PlatformRequires (pkg : Pkg) (host : String × String) : PlatReq :=
  match pkg.platformExclusions with
  | none => PlatReq.req true
  | some _ => PlatReq.attrError

/-- A word character for the Python `\w` class (ASCII reading). -/
def isWordChar (c : Char) : Bool := c.isAlphanum || c == '_'

/-- The regex `\w+\?\w+=(.*)` matched (anchored) against a filename in
`getFilename` (line 47): a word run, `'?'`, a word run, `'='`, capture the
rest.  The greedy runs need no backtracking because `'?'` and `'='` are
not word characters. -/
def pyQueryMatch (s : String) : Option String :=
  let w1 := s.data.takeWhile isWordChar
  match s.data.dropWhile isWordChar with
  | '?' :: r2 =>
    if w1.isEmpty then none
    else
      let w2 := r2.takeWhile isWordChar
      match r2.dropWhile isWordChar with
      | '=' :: rest => if w2.isEmpty then none else some (String.mk rest)
      | _ => none
  | _ => none

/-- The text after the last `'/'` of a string (`url.rsplit('/', 1)[1]`).
The `ValueError` Python would raise when unpacking the 1-element result
for a string with no `'/'` is not modelled; manifest URLs always contain
slashes. -/
def afterLastSlash (s : String) : String :=
  String.mk ((splitByPred (fun c => c == '/') s.data).getLastD [])

/-- `getFilename(pkg, url)` from fetch_packages.py lines 41-50: the
`<local-filename>` text when present, else the last URL path component
with a `word?word=value` query wrapper stripped to its captured value. -/
def getFilename (pkg : Pkg) (url : String) : String :=
  match pkg.localFilename with
  | some t => t
  | none =>
    let filename := afterLastSlash url
    match pyQueryMatch filename with
    | some captured => captured
    | none => filename

/-- Python `str.splitlines` for newline-separated text (only `'\n'` is
modelled): a trailing final newline produces no extra empty line, and the
empty string has no lines. -/
def pySplitlines (s : String) : List String :=
  let parts := (splitByPred (fun c => c == '\n') s.data).map String.mk
  if parts.getLast? == some "" then parts.dropLast else parts

/-- Python `str.split()` with no arguments: split on whitespace runs,
dropping empty fields. -/
def pyFields (s : String) : List String :=
  ((splitByPred Char.isWhitespace s.data).filter (fun t => !t.isEmpty)).map String.mk

/-- `getTarDestination(tgzfile, compress_flag)` from fetch_packages.py
lines 52-56, as a function of the `tar ..tf` listing it parses: take the
first line of the output and return its first whitespace-separated field
(`first.split()[0]`) — the entire first entry name, not merely its
top-level path component.  `none` models the `IndexError` raised on an
empty listing or an all-whitespace first line. -/
def getTarDestination (listing : String) : Option String :=
  match pySplitlines listing with
  | [] => none
  | first :: _ =>
    match pyFields first with
    | [] => none
    | f :: _ => some f

/-- Name characters of the zip-listing regex class `[\w\-\.]`. -/
def zipNameChar (c : Char) : Bool := isWordChar c || c == '-' || c == '.'

/-- One attempted match of `testing:\s+([\w\-\.]+)\/` at the head of a
character list. -/
def zipMatchAt (cs : List Char) : Option String :=
  if ("testing:".data).isPrefixOf cs then
    let r1 := cs.drop 8
    let ws := r1.takeWhile Char.isWhitespace
    let r2 := r1.dropWhile Char.isWhitespace
    if ws.isEmpty then none
    else
      let nm := r2.takeWhile zipNameChar
      match r2.dropWhile zipNameChar with
      | '/' :: _ => if nm.isEmpty then none else some (String.mk nm)
      | _ => none
  else none

/-- `re.search` of the zip-testing pattern within one line: first match
position wins. -/
def zipSearchLine : List Char → Option String
  | [] => none
  | c :: rest =>
    match zipMatchAt (c :: rest) with
    | some g => some g
    | none => zipSearchLine rest

/-- `getZipDestination(zipfile)` from fetch_packages.py lines 58-66, as a
function of the `unzip -t` listing it parses: scan the lines for
`testing:\s+([\w\-\.]+)\/` and return the first captured group, or `None`. -/
def getZipDestination (listing : String) : Option String :=
  (pySplitlines listing).findSome? (fun line => zipSearchLine line.data)

/-- `getFileDestination(file)` from fetch_packages.py lines 68-72: the
basename after the last `'/'`, or `None` when the path has no slash. -/
def getFileDestination (file : String) : Option String :=
  if charIn '/' file.data then some (afterLastSlash file) else none

/-- Destination resolution outcome for lines 213-232: a resolved
destination, or the `AttributeError` raised by `pkg.format`. -/
inductive DestRes where
  | ok (dest : Option String)
  | attrError
  deriving DecidableEq

/-- Destination resolution (fetch_packages.py lines 213-232, non-Windows):
`<unpack-directory>` wins, then `<destination>`.  When neither is set the
code dispatches on `pkg.format` — an attribute that does not exist on
`xml.etree.ElementTree` elements (lxml leftover; contrast line 256, which
correctly reads `pkg.find('format').text`) — so evaluating the very first
condition `pkg.format == 'tgz'` raises `AttributeError` and the listing
helpers `getTarDestination`/`getZipDestination`/`getFileDestination` are
never reached on this path. -/
def resolveDestination (pkg : Pkg) : DestRes :=
  match pkg.unpackDirectory with
  | some u => DestRes.ok (some u)
  | none =>
    match pkg.destination with
    | some d => DestRes.ok (some d)
    | none => DestRes.attrError

/-- The clean-before-unpack block (fetch_packages.py lines 239-248): if a
truthy `rename` names an existing directory remove it, else if a truthy
resolved destination names an existing directory remove it; both removals
are skipped under `--dry-run` (the branch choice is not). -/
def cleanPhase (args : Args) (env : Env) (rename dest : Option String) : List Effect :=
  if strOptTruthy rename && env.isdir (rename.getD "") then
    if args.dry_run then [] else [Effect.rmtree (rename.getD "")]
  else if strOptTruthy dest && env.isdir (dest.getD "") then
    if args.dry_run then [] else [Effect.rmtree (dest.getD "")]
  else []

/-- The non-Windows extraction command table (fetch_packages.py lines
271-284); `none` for an unrecognized format ("Unexpected format"). -/
def buildCmd (args : Args) (format ccfile : String) (dest : Option String) :
    Option (List String) :=
  if format == "tgz" then some ["tar", "zxvf", ccfile]
  else if format == "tbz" then some ["tar", "jxvf", ccfile]
  else if format == "zip" then some ["unzip", "-o", ccfile]
  else if format == "npm" then some ["npm", "install", ccfile, "--prefix", args.cache_dir]
  else if format == "file" then some ["cp", "-af", ccfile, dest.getD ""]
  else none

/-- The guarded extraction block (fetch_packages.py lines 285-317,
non-Windows): skipped entirely under `--dry-run`; the `npm` branch first
creates the two module directories and then evaluates `pkg['name']`
(line 301), which raises `TypeError` on `xml.etree.ElementTree` elements;
every other format runs the extraction command with the unpack directory
as working directory. -/
def extractPhase (args : Args) (format : String) (cmd : List String)
    (unpackdir : Option String) : List Effect × Option POutcome :=
  if args.dry_run then ([], none)
  else if format == "npm" then
    ([Effect.makedirs args.node_modules_dir, Effect.makedirs args.node_modules_tmp_dir],
      some POutcome.typeError)
  else ([Effect.extract cmd unpackdir], none)

/-- `str.lower()` on the character list. -/
def pyLower (s : String) : String := String.mk (s.data.map Char.toLower)

/-- The command line built for one patch (fetch_packages.py lines 80-87):
`patch`, then `-d <destination>` when the package's `<destination>`
element exists — note: the manifest destination field, not the possibly
renamed resolved destination — then `-p <strip>` when the patch has a
truthy `strip` attribute. -/
def patchCommand (destination : Option String) (p : Patch) : List String :=
  ["patch"]
    ++ (match destination with
        | some d => ["-d", d]
        | none => [])
    ++ (if strOptTruthy p.strip then ["-p", p.strip.getD ""] else [])

/-- The patch loop of `ApplyPatches` (fetch_packages.py lines 79-95) over
the remaining patches, `i` being the index of the next patch in the
original order (indexing the `exit0` oracle).  Under `--dry-run` no patch
subprocess runs; otherwise the first failing patch raises `PatchError`
with the patch file name and the loop stops. -/
def applyPatchesLoop (args : Args) (exit0 : Nat → Bool) (destination : Option String) :
    List Patch → Nat → List Effect × Option String
  | [], _ => ([], none)
  | p :: rest, i =>
    if args.dry_run then applyPatchesLoop args exit0 destination rest (i + 1)
    else if exit0 i then
      let r := applyPatchesLoop args exit0 destination rest (i + 1)
      (Effect.patchCmd (patchCommand destination p) p.text :: r.1, r.2)
    else ([Effect.patchCmd (patchCommand destination p) p.text], some p.text)

/-- `ApplyPatches(pkg)` from fetch_packages.py lines 74-95: nothing to do
without a `<patches>` node, else run the loop over the children in
manifest order against the package's `<destination>` element. -/
def ApplyPatches (args : Args) (exit0 : Nat → Bool) (pkg : Pkg) :
    List Effect × Option String :=
  match pkg.patches with
  | none => ([], none)
  | some ps => applyPatchesLoop args exit0 pkg.destination ps 0

/-- The tail of `ProcessPackage` after extraction (fetch_packages.py lines
318-326): `os.rename(dest, rename)` when both are truthy — unguarded by
`--dry-run` — making `rename` the destination used for `autoreconf`,
then `ApplyPatches` (which reads the manifest `<destination>` instead),
then `ReconfigurePackageSources(dest)` when `<autoreconf>` says true
(also unguarded by `--dry-run`; a non-zero exit calls `sys.exit`). -/
def afterExtract (args : Args) (env : Env) (pkg : Pkg) (effs : List Effect)
    (rename dest : Option String) : List Effect × POutcome :=
  let rd :=
    if strOptTruthy rename && strOptTruthy dest then
      (rename, effs ++ [Effect.renameFs (dest.getD "") (rename.getD "")])
    else (dest, effs)
  match ApplyPatches args env.patchExit pkg with
  | (pEffs, some p) => (rd.2 ++ pEffs, POutcome.patchError p)
  | (pEffs, none) =>
    match pkg.autoreconf with
    | some s =>
      if pyLower s == "true" then
        (rd.2 ++ pEffs ++ [Effect.autoreconfAt rd.1],
          if env.autoreconfOk then POutcome.done else POutcome.reconfigureExit)
      else (rd.2 ++ pEffs, POutcome.done)
    | none => (rd.2 ++ pEffs, POutcome.done)

/-- The middle of `ProcessPackage` after a successful download
(fetch_packages.py lines 206-317): resolve the destination (possibly the
`pkg.format` `AttributeError`), clean pre-existing directories, create the
unpack directory (unguarded by `--dry-run`), read the `<format>` text
(`AttributeError` when the node is missing), build the extraction command
("Unexpected format" return for unknown formats) and run the guarded
extraction block. -/
def afterFetch (args : Args) (env : Env) (pkg : Pkg) (ccfile : String)
    (pre : List Effect) : List Effect × POutcome :=
  match resolveDestination pkg with
  | DestRes.attrError => (pre, POutcome.attributeError)
  | DestRes.ok dest =>
    let effs := pre ++ cleanPhase args env pkg.rename dest
      ++ (match pkg.unpackDirectory with
          | some u => [Effect.makedirs u]
          | none => [])
    match pkg.format with
    | none => (effs, POutcome.attributeError)
    | some format =>
      match buildCmd args format ccfile dest with
      | none =>
        (effs ++ [Effect.print ("Unexpected format: " ++ format)],
          POutcome.unsupportedFormat format)
      | some cmd =>
        match extractPhase args format cmd pkg.unpackDirectory with
        | (exEffs, some o) => (effs ++ exEffs, o)
        | (exEffs, none) => afterExtract args env pkg (effs ++ exEffs) pkg.rename dest

/-- `ProcessPackage(pkg)` from fetch_packages.py lines 196-326
(non-Windows): platform filter (a matching `<platform>` node cannot be
reached — see `PlatformRequires`), progress log, download into the cache
file, then the post-download pipeline.  A download failure propagates. -/
def ProcessPackage (args : Args) (env : Env) (pkg : Pkg) : List Effect × POutcome :=
  match PlatformRequires pkg env.host with
  | PlatReq.attrError => ([], POutcome.attributeError)
  | PlatReq.req false => ([], POutcome.skipped)
  | PlatReq.req true =>
    match pkg.urls with
    | [] => ([Effect.print ("Processing " ++ pkg.name ++ " ...")], POutcome.indexError)
    | u :: _ =>
      let ccfile := args.cache_dir ++ "/" ++ getFilename pkg u.text
      match DownloadPackage args env.net pkg.urls ccfile env.fileState pkg.md5 with
      | (st, FetchResult.success) =>
        afterFetch args env pkg ccfile
          [Effect.print ("Processing " ++ pkg.name ++ " ..."),
            Effect.fetch st.attempts st.sleeps]
      | (st, r) =>
        ([Effect.print ("Processing " ++ pkg.name ++ " ..."),
          Effect.fetch st.attempts st.sleeps], POutcome.fetchError r)

/-- The effect kinds that the `--dry-run` guards of fetch_packages.py
suppress: directory removal, the extraction subprocess, and the patch
subprocess. -/
def dryRunSkipped : Effect → Bool
  | Effect.rmtree _ => true
  | Effect.extract _ _ => true
  | Effect.patchCmd _ _ => true
  | _ => false

/-- No effect of the trace is one of the `--dry-run`-suppressed kinds. -/
def noSkippedEffects (es : List Effect) : Bool :=
  es.all (fun e => !(dryRunSkipped e))

/-- Total number of network transfer attempts recorded in a trace. -/
def tracesAttempts : List Effect → Nat
  | [] => 0
  | Effect.fetch a _ :: rest => a + tracesAttempts rest
  | _ :: rest => tracesAttempts rest

/-- The default `ARGS` configuration (cache in `cache/`, no mirror,
not verbose, not dry-run). -/
def defaultArgs : Args :=
  { cache_dir := "cache", node_modules_dir := "node_modules",
    node_modules_tmp_dir := "cache/node_modules", verbose := false,
    dry_run := false, site_mirror := none }

/-- `defaultArgs` with `--dry-run`. -/
def dryArgs : Args := { defaultArgs with dry_run := true }

theorem applyPatchesLoop_abort (args : Args) (exit0 : Nat → Bool) (dest : Option String)
    (hdry : args.dry_run = false) :
    ∀ (ps : List Patch) (k i : Nat) (hk : k < ps.length),
      (∀ j, j < k → exit0 (i + j) = true) → exit0 (i + k) = false →
      applyPatchesLoop args exit0 dest ps i
        = ((ps.take (k + 1)).map (fun p => Effect.patchCmd (patchCommand dest p) p.text),
            some ((ps.get ⟨k, hk⟩).text)) := by
  intro ps
  induction ps with
  | nil =>
    intro k i hk
    exact absurd hk (by simp)
  | cons p rest ih =>
    intro k i hk hbef hfail
    cases k with
    | zero =>
      have h0 : exit0 i = false := by simpa using hfail
      simp [applyPatchesLoop, hdry, h0]
    | succ k2 =>
      have h0 : exit0 i = true := by
        have := hbef 0 (Nat.succ_pos k2)
        simpa using this
      have hk2 : k2 < rest.length := by simpa using hk
      have hbef2 : ∀ j, j < k2 → exit0 (i + 1 + j) = true := by
        intro j hj
        have := hbef (j + 1) (by omega)
        rwa [show i + (j + 1) = i + 1 + j by omega] at this
      have hfail2 : exit0 (i + 1 + k2) = false := by
        rwa [show i + (k2 + 1) = i + 1 + k2 by omega] at hfail
      have ihx := ih k2 (i + 1) hk2 hbef2 hfail2
      simp [applyPatchesLoop, hdry, h0, ihx]

/-- C3: Patch abort semantics.  With patches applied strictly in manifest
order, if the first `k` patch subprocesses exit zero and the `(k+1)`-st
exits non-zero, then `ApplyPatches` invokes exactly the first `k + 1`
patches in order (so every patch before the failing one has been applied,
with no rollback), raises `PatchError` naming the failing patch, and
never attempts any later patch. -/
theorem patch_abort (args : Args) (exit0 : Nat → Bool) (pkg : Pkg) (ps : List Patch)
    (k : Nat) (hdry : args.dry_run = false) (hps : pkg.patches = some ps)
    (hk : k < ps.length) (hbef : ∀ j, j < k → exit0 j = true)
    (hfail : exit0 k = false) :
    ApplyPatches args exit0 pkg
      = ((ps.take (k + 1)).map
            (fun p => Effect.patchCmd (patchCommand pkg.destination p) p.text),
          some ((ps.get ⟨k, hk⟩).text)) := by
  unfold ApplyPatches
  rw [hps]
  exact applyPatchesLoop_abort args exit0 pkg.destination hdry ps k 0 hk
    (fun j hj => by simpa using hbef j hj) (by simpa using hfail)

/-- A package with three patches whose second patch fails. -/
def patchPkg : Pkg :=
  { name := "thrift", urls := [{ text := "http://example.com/thrift.tgz" }],
    localFilename := some "thrift.tgz", md5 := "aaaa", format := some "tgz",
    destination := some "thrift-0.9", unpackDirectory := none, rename := none,
    patches := some [{ text := "p1.patch", strip := none },
                     { text := "p2.patch", strip := some "1" },
                     { text := "p3.patch", strip := none }],
    platformExclusions := none, autoreconf := none }

theorem patch_abort_witness :
    ApplyPatches defaultArgs (fun i => i == 0) patchPkg
      = ([Effect.patchCmd ["patch", "-d", "thrift-0.9"] "p1.patch",
          Effect.patchCmd ["patch", "-d", "thrift-0.9", "-p", "1"] "p2.patch"],
          some "p2.patch") := by
  have h := patch_abort defaultArgs (fun i => i == 0) patchPkg
      [{ text := "p1.patch", strip := none }, { text := "p2.patch", strip := some "1" },
        { text := "p3.patch", strip := none }] 1 rfl rfl (by decide)
      (fun j hj => by simp [Nat.lt_one_iff.mp hj]) (by decide)
  simpa [patchCommand, strOptTruthy, patchPkg] using h

/-- A `tgz` package with neither `<unpack-directory>` nor `<destination>`. -/
def tgzPkg : Pkg :=
  { name := "pkgfoo", urls := [{ text := "http://example.com/foo-1.2.3.tgz" }],
    localFilename := some "foo-1.2.3.tgz", md5 := "aaaa", format := some "tgz",
    destination := none, unpackDirectory := none, rename := none,
    patches := none, platformExclusions := none, autoreconf := none }

/-- C4 counterexample: for a `tgz` package with neither unpack-directory
nor destination set, destination resolution does not produce the
top-level path component of the first archive entry — it raises
`AttributeError` (`pkg.format` does not exist on manifest elements); and
even the underlying listing helper applied to a listing whose first entry
is `foo-1.2.3/README` returns the whole entry, not `foo-1.2.3`. -/
theorem tar_destination_counterexample :
    resolveDestination tgzPkg = DestRes.attrError
    ∧ ¬(getTarDestination "foo-1.2.3/README" = some "foo-1.2.3") := by
  exact ⟨rfl, by decide⟩

/-- C4 (amended): for every package with neither unpack-directory nor
destination set, the non-Windows inference branch raises `AttributeError`
(the code reads the non-existent `pkg.format`), so no destination is
inferred; the listing helper `getTarDestination` the branch was meant to
use returns the first whitespace-separated field of the first listing
line — the full first entry — so a listing with first entry
`foo-1.2.3/README` yields `foo-1.2.3/README`, not `foo-1.2.3`. -/
theorem tar_destination_amended (pkg : Pkg)
    (h1 : pkg.unpackDirectory = none) (h2 : pkg.destination = none) :
    resolveDestination pkg = DestRes.attrError
    ∧ getTarDestination "foo-1.2.3/README" = some "foo-1.2.3/README" := by
  constructor
  · unfold resolveDestination
    rw [h1, h2]
  · decide

theorem tar_destination_amended_witness :
    resolveDestination tgzPkg = DestRes.attrError
    ∧ getTarDestination "foo-1.2.3/README" = some "foo-1.2.3/README" :=
  tar_destination_amended tgzPkg rfl rfl

/-- `tgzPkg` with an explicit destination and no platform section. -/
def noPlatformPkg : Pkg := { tgzPkg with name := "zlib", destination := some "zlib-1.2" }

/-- `noPlatformPkg` with a platform-exclusion section. -/
def excludedPkg : Pkg :=
  { noPlatformPkg with platformExclusions := some [("ubuntu", "-14.04")] }

/-- An environment on an ubuntu 12.04 host with a valid cached file. -/
def hostEnv : Env :=
  { host := ("ubuntu", "12.04"), isdir := fun _ => false, fileState := some "aaaa",
    net := fun _ _ => none, patchExit := fun _ => true, autoreconfOk := true }

/-- C6 evaluated: a package without a platform section always applies, and
an exclusion whose distro name differs from the host's does not match —
but a package *with* a platform-exclusion section is not silently
skipped: `PlatformRequires` calls `exclude.iterchildren`, which does not
exist on `xml.etree.ElementTree` elements, so processing the package
raises `AttributeError` (aborting the run) before any exclusion is
compared, even on a host the exclusion matches. -/
theorem platform_filter_eval :
    PlatformRequires noPlatformPkg ("ubuntu", "12.04") = PlatReq.req true
    ∧ PlatformMatch ("centos", "7") ("ubuntu", "-14.04") = false
    ∧ PlatformRequires excludedPkg ("ubuntu", "12.04") = PlatReq.attrError
    ∧ ProcessPackage defaultArgs hostEnv excludedPkg = ([], POutcome.attributeError) := by
  exact ⟨rfl, by decide, rfl, rfl⟩

theorem applyPatchesLoop_all_success (args : Args) (exit0 : Nat → Bool)
    (dest : Option String) (hdry : args.dry_run = false)
    (hall : ∀ j, exit0 j = true) :
    ∀ (ps : List Patch) (i : Nat),
      applyPatchesLoop args exit0 dest ps i
        = (ps.map (fun p => Effect.patchCmd (patchCommand dest p) p.text), none) := by
  intro ps
  induction ps with
  | nil => intro i; rfl
  | cons p rest ih =>
    intro i
    simp [applyPatchesLoop, hdry, hall i, ih (i + 1)]

/-- A `tgz` package with destination, rename, one patch and autoreconf. -/
def renamePkg : Pkg :=
  { name := "thrift", urls := [{ text := "http://example.com/thrift.tgz" }],
    localFilename := some "thrift.tgz", md5 := "aaaa", format := some "tgz",
    destination := some "thrift-0.9", unpackDirectory := none,
    rename := some "thrift-renamed",
    patches := some [{ text := "fix.patch", strip := none }],
    platformExclusions := none, autoreconf := some "true" }

/-- C7 counterexample: for a package with `destination = thrift-0.9` and
`rename = thrift-renamed`, the patch subprocess is invoked with
`-d thrift-0.9` — the manifest destination, not the rename target — while
`autoreconf` does run in the rename target; no patch command mentioning
the rename target appears in the trace. -/
theorem rename_patch_counterexample :
    ProcessPackage defaultArgs hostEnv renamePkg
      = ([Effect.print "Processing thrift ...", Effect.fetch 0 [],
          Effect.extract ["tar", "zxvf", "cache/thrift.tgz"] none,
          Effect.renameFs "thrift-0.9" "thrift-renamed",
          Effect.patchCmd ["patch", "-d", "thrift-0.9"] "fix.patch",
          Effect.autoreconfAt (some "thrift-renamed")], POutcome.done)
    ∧ ¬(Effect.patchCmd ["patch", "-d", "thrift-renamed"] "fix.patch"
          ∈ (ProcessPackage defaultArgs hostEnv renamePkg).1) := by
  exact ⟨by decide, by decide⟩

/-- C7 (amended): when `rename` is set, the resolved destination is moved
to the rename target after extraction and the rename target is the
destination used by the build-script reconfiguration — but patch
application is not redirected: every patch command in the trace is built
from the package's manifest `<destination>` field. -/
theorem rename_redirection_amended (args : Args) (env : Env) (pkg : Pkg)
    (u : Url) (us : List Url) (d r : String) (ps : List Patch)
    (hplat : pkg.platformExclusions = none)
    (hurls : pkg.urls = u :: us)
    (hfile : env.fileState = some pkg.md5)
    (hud : pkg.unpackDirectory = none)
    (hdest : pkg.destination = some d) (hdne : (d == "") = false)
    (hren : pkg.rename = some r) (hrne : (r == "") = false)
    (hfmt : pkg.format = some "tgz")
    (hdry : args.dry_run = false)
    (hpat : pkg.patches = some ps)
    (hauto : pkg.autoreconf = some "true")
    (hpe : ∀ j, env.patchExit j = true)
    (hir : env.isdir r = false) (hid : env.isdir d = false) :
    Effect.renameFs d r ∈ (ProcessPackage args env pkg).1
    ∧ Effect.autoreconfAt (some r) ∈ (ProcessPackage args env pkg).1
    ∧ ∀ c t, Effect.patchCmd c t ∈ (ProcessPackage args env pkg).1 →
        ∃ p ∈ ps, c = patchCommand (some d) p ∧ t = p.text := by
  have hreq : PlatformRequires pkg env.host = PlatReq.req true := by
    unfold PlatformRequires
    rw [hplat]
  have hdl : DownloadPackage args env.net (u :: us)
      (args.cache_dir ++ "/" ++ getFilename pkg u.text) (some pkg.md5) pkg.md5
      = ({ file := some pkg.md5, md5sumVar := some pkg.md5, attempts := 0, sleeps := [] },
          FetchResult.success) := by
    unfold DownloadPackage
    simp
  have hrd : resolveDestination pkg = DestRes.ok (some d) := by
    simp [resolveDestination, hud, hdest]
  have hstr : strOptTruthy (some r) = true := by simp [strOptTruthy, hrne]
  have hstd : strOptTruthy (some d) = true := by simp [strOptTruthy, hdne]
  have hcp : cleanPhase args env (some r) (some d) = [] := by
    simp [cleanPhase, hstr, hstd, hir, hid]
  have hap : ApplyPatches args env.patchExit pkg
      = (ps.map (fun p => Effect.patchCmd (patchCommand (some d) p) p.text), none) := by
    simp only [ApplyPatches, hpat, hdest]
    exact applyPatchesLoop_all_success args env.patchExit (some d) hdry hpe ps 0
  have hlow : (pyLower "true" == "true") = true := by decide
  have htgz1 : (("tgz" : String) == "tgz") = true := by decide
  have htgz2 : (("tgz" : String) == "npm") = false := by decide
  refine ⟨?_, ?_, ?_⟩
  · simp [ProcessPackage, hreq, hurls, hfile, hdl, afterFetch, hrd, hcp, hud, hfmt,
      buildCmd, htgz1, htgz2, extractPhase, hdry, afterExtract, hren, hstr, hstd,
      hap, hauto, hlow]
  · simp [ProcessPackage, hreq, hurls, hfile, hdl, afterFetch, hrd, hcp, hud, hfmt,
      buildCmd, htgz1, htgz2, extractPhase, hdry, afterExtract, hren, hstr, hstd,
      hap, hauto, hlow]
  · intro c t hmem
    simp [ProcessPackage, hreq, hurls, hfile, hdl, afterFetch, hrd, hcp, hud, hfmt,
      buildCmd, htgz1, htgz2, extractPhase, hdry, afterExtract, hren, hstr, hstd,
      hap, hauto, hlow] at hmem
    obtain ⟨p, hp, h1, h2⟩ := hmem
    exact ⟨p, hp, h1.symm, h2.symm⟩

theorem rename_redirection_amended_witness :
    Effect.renameFs "thrift-0.9" "thrift-renamed"
      ∈ (ProcessPackage defaultArgs hostEnv renamePkg).1 :=
  (rename_redirection_amended defaultArgs hostEnv renamePkg
    { text := "http://example.com/thrift.tgz" } [] "thrift-0.9" "thrift-renamed"
    [{ text := "fix.patch", strip := none }]
    rfl rfl rfl rfl rfl (by decide) rfl (by decide) rfl rfl rfl rfl
    (fun _ => rfl) rfl rfl).1

theorem noSkipped_append (a b : List Effect) :
    noSkippedEffects (a ++ b) = (noSkippedEffects a && noSkippedEffects b) := by
  simp [noSkippedEffects, List.all_append]

theorem noSkipped_nil : noSkippedEffects [] = true := rfl

theorem noSkipped_singleton_renameFs (a b : String) :
    noSkippedEffects [Effect.renameFs a b] = true := rfl

theorem noSkipped_singleton_autoreconf (x : Option String) :
    noSkippedEffects [Effect.autoreconfAt x] = true := rfl

theorem noSkipped_singleton_makedirs (x : String) :
    noSkippedEffects [Effect.makedirs x] = true := rfl

theorem noSkipped_singleton_print (m : String) :
    noSkippedEffects [Effect.print m] = true := rfl

theorem cleanPhase_dry (args : Args) (env : Env) (rename dest : Option String)
    (h : args.dry_run = true) : cleanPhase args env rename dest = [] := by
  simp [cleanPhase, h, ite_self]

theorem applyPatchesLoop_dry (args : Args) (exit0 : Nat → Bool) (dest : Option String)
    (h : args.dry_run = true) :
    ∀ (ps : List Patch) (i : Nat), applyPatchesLoop args exit0 dest ps i = ([], none) := by
  intro ps
  induction ps with
  | nil => intro i; rfl
  | cons p rest ih =>
    intro i
    simp [applyPatchesLoop, h, ih (i + 1)]

theorem ApplyPatches_dry (args : Args) (exit0 : Nat → Bool) (pkg : Pkg)
    (h : args.dry_run = true) : ApplyPatches args exit0 pkg = ([], none) := by
  unfold ApplyPatches
  cases hp : pkg.patches with
  | none => rfl
  | some ps => exact applyPatchesLoop_dry args exit0 pkg.destination h ps 0

theorem extractPhase_dry (args : Args) (format : String) (cmd : List String)
    (unpackdir : Option String) (h : args.dry_run = true) :
    extractPhase args format cmd unpackdir = ([], none) := by
  simp [extractPhase, h]

theorem afterExtract_dry_noSkipped (args : Args) (env : Env) (pkg : Pkg)
    (effs : List Effect) (rename dest : Option String) (h : args.dry_run = true)
    (he : noSkippedEffects effs = true) :
    noSkippedEffects (afterExtract args env pkg effs rename dest).1 = true := by
  have he2 : effs.all (fun e => !(dryRunSkipped e)) = true := he
  have he3 : ∀ x ∈ effs, dryRunSkipped x = false := by
    intro x hx
    simpa using List.all_eq_true.mp he2 x hx
  unfold afterExtract
  rw [ApplyPatches_dry args env.patchExit pkg h]
  by_cases hc : (strOptTruthy rename && strOptTruthy dest) = true
  · cases hauto : pkg.autoreconf with
    | none =>
      simp [hc, hauto, noSkippedEffects, List.all_append, dryRunSkipped] <;> exact he3
    | some s =>
      by_cases hl : (pyLower s == "true") = true
      · simp [hc, hauto, hl, noSkippedEffects, List.all_append, dryRunSkipped] <;>
          exact he3
      · simp [hc, hauto, hl, noSkippedEffects, List.all_append, dryRunSkipped] <;>
          exact he3
  · cases hauto : pkg.autoreconf with
    | none =>
      simp [hc, hauto, noSkippedEffects, List.all_append, dryRunSkipped] <;> exact he3
    | some s =>
      by_cases hl : (pyLower s == "true") = true
      · simp [hc, hauto, hl, noSkippedEffects, List.all_append, dryRunSkipped] <;>
          exact he3
      · simp [hc, hauto, hl, noSkippedEffects, List.all_append, dryRunSkipped] <;>
          exact he3

theorem afterFetch_dry_noSkipped (args : Args) (env : Env) (pkg : Pkg)
    (ccfile : String) (pre : List Effect) (h : args.dry_run = true)
    (hp : noSkippedEffects pre = true) :
    noSkippedEffects (afterFetch args env pkg ccfile pre).1 = true := by
  unfold afterFetch
  cases hrd : resolveDestination pkg with
  | attrError => simpa using hp
  | ok dest =>
    dsimp only
    rw [cleanPhase_dry args env pkg.rename dest h]
    have heffs : noSkippedEffects (pre ++ []
        ++ (match pkg.unpackDirectory with
            | some u2 => [Effect.makedirs u2]
            | none => ([] : List Effect))) = true := by
      cases hu : pkg.unpackDirectory <;>
        simp [noSkipped_append, hp, noSkipped_nil, noSkipped_singleton_makedirs]
    cases hfmt : pkg.format with
    | none =>
      dsimp only
      simpa using heffs
    | some format =>
      dsimp only
      cases hbc : buildCmd args format ccfile dest with
      | none =>
        dsimp only
        simpa [noSkipped_append, noSkipped_singleton_print] using heffs
      | some cmd =>
        dsimp only
        rw [extractPhase_dry args format cmd pkg.unpackDirectory h]
        exact afterExtract_dry_noSkipped args env pkg _ pkg.rename dest h
          (by simpa [noSkipped_append, noSkipped_nil] using heffs)

/-- C8 (amended): under `--dry-run` no directory removal, no extraction
subprocess and no patch subprocess appears in the trace of
`ProcessPackage` — those are the only operations the dry-run flag guards.
Filtering, destination resolution and logging still take place, and so do
the operations the flag does **not** guard (the network download, unpack
directory creation, `os.rename` and `autoreconf`). -/
theorem dry_run_frame (args : Args) (env : Env) (pkg : Pkg)
    (h : args.dry_run = true) :
    noSkippedEffects (ProcessPackage args env pkg).1 = true := by
  unfold ProcessPackage
  cases hreq : PlatformRequires pkg env.host with
  | attrError => rfl
  | req b =>
    cases b with
    | false => rfl
    | true =>
      cases hu : pkg.urls with
      | nil => rfl
      | cons u us =>
        dsimp only
        rcases hdl : DownloadPackage args env.net (u :: us)
            (args.cache_dir ++ "/" ++ getFilename pkg u.text) env.fileState pkg.md5
          with ⟨st, r⟩
        cases r with
        | success =>
          exact afterFetch_dry_noSkipped args env pkg _ _ h rfl
        | checksumMismatch a b c => rfl
        | nameError => rfl

theorem dry_run_frame_witness :
    noSkippedEffects (ProcessPackage dryArgs hostEnv renamePkg).1 = true :=
  dry_run_frame dryArgs hostEnv renamePkg rfl

/-- An environment with an empty cache and a first-try successful
transfer. -/
def missEnv : Env :=
  { host := ("ubuntu", "14.04"), isdir := fun _ => false, fileState := none,
    net := fun _ _ => some "aaaa", patchExit := fun _ => true, autoreconfOk := true }

/-- C8 counterexample: processing a package under `--dry-run` with an
empty cache still performs a network transfer — `DownloadPackage` never
consults the dry-run flag — so the trace records one transfer attempt,
not zero. -/
theorem dry_run_download_counterexample :
    dryArgs.dry_run = true
    ∧ tracesAttempts (ProcessPackage dryArgs missEnv noPlatformPkg).1 = 1 := by
  exact ⟨rfl, by decide⟩
